import Mathlib

/-!
# ML-Fest-Platform — verification of the Competition Integrity & Scoring core

Shallow embedding, in Lean 4, of the data model and operations of the
ML-Fest-Platform repository (Python / FastAPI / SQLAlchemy), together with
theorems settling the frozen claims about it.

The embedding follows the source files:
* `models.py`            — ORM rows (`User`, `Challenge`, `Flag`, `Submission`,
  `Score`, `UserFlag`, `SiteConfig`, `QuizAttempt`), `Flag.validate_flag`,
  `generate_user_flags`, `User.get_total_points`,
  `User.get_last_correct_submission_time`.
* `routes/api.py`        — `_check_rate_limit`, `_record_attempt`,
  `_submit_flag_internal`, `get_leaderboard`.
* `routes/evaluator.py`  — `approve_score`, `reject_score` (the admin variants
  in `routes/admin.py` perform the identical state change).
* `routes/round1.py`     — `_time_remaining`, `_compute_score`, `save_answer`,
  `record_tab_switch`, `submit_quiz`.
* `challenge_catalog.py` — the static per-challenge category maxima.

Database tables are lists of row structures; timestamps are natural numbers
(seconds); SQLAlchemy mutation + commit is explicit state passing.
-/

namespace MLFest

/-! ## A model of Python `re` pattern matching

`Flag.validate_flag` (models.py) calls the external `re` library:
`re.match(pattern, s)` anchors at the start of `s` (it succeeds iff the
pattern matches some prefix of `s`), and `re.compile`/`re.match` raise
`re.error` on a malformed pattern.  The library is not part of the
repository, so it is modelled here by a Brzozowski-derivative matcher over
the regex fragment: ordinary characters, `.`, alternation `|`, grouping
`(...)`, the postfix repeaters `*`, `+`, `?`, and backslash escapes.
Metacharacters outside this fragment (`[`, `]`, `{`, `}`, `^`, `$`) are
outside the model and are treated as parse errors.  A parse error (`none`)
models `re.error`. -/

inductive Regex where
  | fail : Regex
  | eps : Regex
  | char : Char → Regex
  | anyChar : Regex
  | seq : Regex → Regex → Regex
  | alt : Regex → Regex → Regex
  | star : Regex → Regex
deriving Repr, DecidableEq

def Regex.nullable : Regex → Bool
  | .fail => false
  | .eps => true
  | .char _ => false
  | .anyChar => false
  | .seq r₁ r₂ => r₁.nullable && r₂.nullable
  | .alt r₁ r₂ => r₁.nullable || r₂.nullable
  | .star _ => true

def Regex.deriv (c : Char) : Regex → Regex
  | .fail => .fail
  | .eps => .fail
  | .char d => if c = d then .eps else .fail
  | .anyChar => .eps
  | .seq r₁ r₂ =>
      if r₁.nullable then .alt (.seq (r₁.deriv c) r₂) (r₂.deriv c)
      else .seq (r₁.deriv c) r₂
  | .alt r₁ r₂ => .alt (r₁.deriv c) (r₂.deriv c)
  | .star r => .seq (r.deriv c) (.star r)

/-- Does `r` match the full character list `s`? -/
def Regex.matchesFull (r : Regex) : List Char → Bool
  | [] => r.nullable
  | c :: cs => (r.deriv c).matchesFull cs

/-- Python `re.match` semantics: does `r` match some prefix of `s`? -/
def Regex.matchesPrefix (r : Regex) : List Char → Bool
  | [] => r.nullable
  | c :: cs => r.nullable || (r.deriv c).matchesPrefix cs

/-! ### Pattern parser (fuel-indexed recursive descent)

Grammar: `alt := seq ('|' seq)*`; `seq := repeated*`;
`repeated := atom ('*'|'+'|'?')?`; `atom := '(' alt ')' | '.' | '\' c | c`.
A repeater with nothing to repeat, an unbalanced parenthesis, a trailing
backslash, a doubled repeater, or an unsupported metacharacter is a parse
error, modelling `re.error`. -/

def isUnsupportedMeta (c : Char) : Bool :=
  c = '[' || c = ']' || c = '\x7b' || c = '\x7d' || c = '^' || c = '$'

def isRepeater (c : Char) : Bool :=
  c = '*' || c = '+' || c = '?'

mutual

def parseAlt (fuel : Nat) (cs : List Char) : Option (Regex × List Char) :=
  match fuel with
  | 0 => none
  | fuel + 1 =>
    match parseSeq fuel cs with
    | none => none
    | some (r, rest) =>
      match rest with
      | '|' :: rest' =>
        match parseAlt fuel rest' with
        | none => none
        | some (r', rest'') => some (.alt r r', rest'')
      | _ => some (r, rest)

def parseSeq (fuel : Nat) (cs : List Char) : Option (Regex × List Char) :=
  match fuel with
  | 0 => none
  | fuel + 1 =>
    match cs with
    | [] => some (.eps, [])
    | ')' :: _ => some (.eps, cs)
    | '|' :: _ => some (.eps, cs)
    | c :: _ =>
      if isRepeater c then none  -- nothing to repeat
      else
        match parseRepeated fuel cs with
        | none => none
        | some (r, rest) =>
          match parseSeq fuel rest with
          | none => none
          | some (r', rest') => some (.seq r r', rest')

def parseRepeated (fuel : Nat) (cs : List Char) : Option (Regex × List Char) :=
  match fuel with
  | 0 => none
  | fuel + 1 =>
    match parseAtom fuel cs with
    | none => none
    | some (r, rest) =>
      match rest with
      | '*' :: rest' =>
        if rest'.head? |>.any isRepeater then none  -- multiple repeat
        else some (.star r, rest')
      | '+' :: rest' =>
        if rest'.head? |>.any isRepeater then none
        else some (.seq r (.star r), rest')
      | '?' :: rest' =>
        if rest'.head? |>.any isRepeater then none
        else some (.alt r .eps, rest')
      | _ => some (r, rest)

def parseAtom (fuel : Nat) (cs : List Char) : Option (Regex × List Char) :=
  match fuel with
  | 0 => none
  | fuel + 1 =>
    match cs with
    | [] => none
    | '(' :: rest =>
      match parseAlt fuel rest with
      | none => none
      | some (r, rest') =>
        match rest' with
        | ')' :: rest'' => some (r, rest'')
        | _ => none  -- missing ), unbalanced parenthesis
    | '.' :: rest => some (.anyChar, rest)
    | '\\' :: c :: rest => some (.char c, rest)
    | ['\\'] => none  -- trailing backslash
    | c :: rest =>
      if c = ')' || c = '|' || isRepeater c || isUnsupportedMeta c then none
      else some (.char c, rest)

end

/-- Compile a pattern string; `none` models `re.error`. -/
def compilePattern (pattern : String) : Option Regex :=
  let cs := pattern.toList
  match parseAlt (2 * cs.length + 2) cs with
  | some (r, []) => some r
  | _ => none

/-! ### Python string primitives

The embedding uses character-list implementations of the Python string
operations (`lower`, `upper`, `startswith`, `endswith`, `replace`,
slicing), extensionally equal to the byte-position loops of core `String`
but, unlike those, reducible by the kernel so that concrete instances
evaluate. -/

/-- `str.lower()`. -/
def strLower (s : String) : String := ⟨s.data.map Char.toLower⟩

/-- `str.upper()`. -/
def strUpper (s : String) : String := ⟨s.data.map Char.toUpper⟩

/-- `str.startswith(pre)`. -/
def strStartsWith (s pre : String) : Bool := pre.data.isPrefixOf s.data

/-- `str.endswith(suf)`. -/
def strEndsWith (s suf : String) : Bool := suf.data.isSuffixOf s.data

/-- `s[n:]`. -/
def strDrop (s : String) (n : Nat) : String := ⟨s.data.drop n⟩

/-- `s[:-n]`. -/
def strDropRight (s : String) (n : Nat) : String :=
  ⟨s.data.take (s.data.length - n)⟩

/-- Left-to-right non-overlapping replacement, fuel-indexed (the fuel is
the input length; Python's `str.replace` with a nonempty pattern consumes
at least one character per step). -/
def replaceAux (pat rep : List Char) : Nat → List Char → List Char
  | 0, s => s
  | _ + 1, [] => []
  | fuel + 1, c :: rest =>
    if pat.isPrefixOf (c :: rest) then
      rep ++ replaceAux pat rep fuel ((c :: rest).drop pat.length)
    else
      c :: replaceAux pat rep fuel rest

/-- `str.replace(pat, rep)` — every occurrence, not only a prefix. -/
def strReplace (s pat rep : String) : String :=
  ⟨replaceAux pat.data rep.data s.data.length s.data⟩

/-- Model of Python `re.match(pattern, s)` returning whether a match exists;
`none` models `re.error` raised on a malformed pattern. -/
def reMatch (pattern s : String) : Option Bool :=
  (compilePattern pattern).map (fun r => r.matchesPrefix s.toList)

/-! ## `Flag.validate_flag` (models.py lines 177–187)

```python
def validate_flag(self, submitted_flag):
    if self.flag_content.lower() == submitted_flag.lower():
        return True
    if self.flag_content.startswith("REGEX:"):
        pattern = self.flag_content.replace("REGEX:", "")
        try:
            if re.match(pattern, submitted_flag):
                return True
        except re.error:
            pass
    return False
```
Note `str.replace` removes every occurrence of `"REGEX:"`, not only the
prefix. -/

def validate_flag (flag_content submitted_flag : String) : Bool :=
  if strLower flag_content == strLower submitted_flag then true
  else if strStartsWith flag_content "REGEX:" then
    let pattern := strReplace flag_content "REGEX:" ""
    match reMatch pattern submitted_flag with
    | some true => true
    | some false => false
    | none => false  -- except re.error: pass → fall through to return False
  else false

/-! ## Data model (models.py)

Rows carry the columns the verified operations read or write; timestamps are
naturals (seconds since epoch), `DateTime NULL` columns are `Option Nat`.
Each table is a list of rows; primary-key columns are `Nat`. -/

/-- `User` row (models.py lines 19–44). -/
structure UserRow where
  id : Nat
  username : String
  created_at : Nat
  total_points : Int
  is_admin : Bool
  is_evaluator : Bool
  is_approved : Bool
  assigned_evaluator_id : Option Nat
deriving Repr, DecidableEq

/-- `Flag` row (models.py lines 164–173). -/
structure FlagRow where
  id : Nat
  challenge_id : Nat
  flag_content : String
  flag_order : Option Int
  points_value : Int
deriving Repr, DecidableEq

/-- `Challenge` row (models.py lines 106–118), with its `flags` relationship
(the flag rows of the challenge, in stored order). -/
structure ChallengeRow where
  id : Nat
  total_points : Int
  order_position : Nat
  is_revealed : Bool
  flags : List FlagRow
deriving Repr, DecidableEq

/-- `Submission` row (models.py lines 195–205). -/
structure SubmissionRow where
  user_id : Nat
  challenge_id : Nat
  flag_id : Option Nat
  submitted_flag : String
  is_correct : Bool
  submitted_at : Nat
  points_awarded : Int
deriving Repr, DecidableEq

/-- `Score` row (models.py lines 213–229); the table carries
`UniqueConstraint("user_id", "flag_id")`. -/
structure ScoreRow where
  id : Nat
  user_id : Nat
  challenge_id : Nat
  flag_id : Nat
  points : Int
  flag_points : Int
  explanation_points : Int
  is_approved : Bool
  approved_by : Option Nat
  approved_at : Option Nat
  leaderboard_visible : Bool
deriving Repr, DecidableEq

/-- `UserFlag` row (models.py lines 237–248); the table carries
`UniqueConstraint("user_id", "flag_id")`. -/
structure UserFlagRow where
  user_id : Nat
  flag_id : Nat
  challenge_id : Nat
  flag_value : String
deriving Repr, DecidableEq

/-- `SiteConfig` singleton row (models.py lines 290–296). -/
structure SiteConfigRow where
  active_round : Int
  event_active : Bool
  leaderboard_public : Bool
deriving Repr, DecidableEq

/-- The relational store: one list per table plus the singleton config. -/
structure DB where
  users : List UserRow
  challenges : List ChallengeRow
  scores : List ScoreRow
  submissions : List SubmissionRow
  userFlags : List UserFlagRow
  config : SiteConfigRow
deriving Repr, DecidableEq

/-- `db.query(Flag).all()` — every flag row (each flag row belongs to exactly
one challenge via its non-null FK, so the table is the union of the
challenges' `flags` relationships). -/
def DB.allFlags (db : DB) : List FlagRow :=
  db.challenges.flatMap (·.flags)

/-- `User.get_total_points` (models.py lines 77–83): sum of `points` over the
user's approved Score rows (`or 0` when there are none). -/
def get_total_points (scores : List ScoreRow) (uid : Nat) : Int :=
  ((scores.filter (fun s => s.user_id == uid && s.is_approved)).map (·.points)).sum

/-- `User.get_last_correct_submission_time` (models.py lines 85–91):
`MAX(submitted_at)` over the user's correct submissions, `none` if there are
none. -/
def get_last_correct_submission_time (subs : List SubmissionRow) (uid : Nat) :
    Option Nat :=
  ((subs.filter (fun s => s.user_id == uid && s.is_correct)).map
    (·.submitted_at)).max?

/-! ## Rate limiter (routes/api.py lines 16–30)

`_submission_tracker` maps a user id to a list of attempt timestamps; the
operations below act on one user's list.  `_check_rate_limit` first purges
timestamps older than the window (mutating the tracker), then compares the
count to the maximum; `_record_attempt` appends the current time. -/

/-- The purge inside `_check_rate_limit`: keep timestamps with
`(now - t).total_seconds() < window`.  (For `t > now` Python keeps the
timestamp since the difference is negative; truncated `Nat` subtraction
gives `0 < window`, the same verdict.) -/
def purgeTracker (now window : Nat) (ts : List Nat) : List Nat :=
  ts.filter (fun t => now - t < window)

/-- `_check_rate_limit(user_id)` with defaults `max_attempts=5`, `window=60`:
returns the allow/deny verdict together with the purged tracker list. -/
def check_rate_limit (now : Nat) (ts : List Nat) : Bool × List Nat :=
  let ts' := purgeTracker now 60 ts
  (ts'.length < 5, ts')

/-- `_record_attempt(user_id)`: append the current timestamp. -/
def record_attempt (now : Nat) (ts : List Nat) : List Nat :=
  ts ++ [now]

/-! ## `_submit_flag_internal` (routes/api.py lines 34–118) -/

/-- The distinct outcomes of `_submit_flag_internal`, one per `return`. -/
inductive SubmitOutcome where
  /-- 403 "The event has not started yet or has ended." -/
  | eventClosed : SubmitOutcome
  /-- 400 "Challenge ID and flag are required". -/
  | missingParams : SubmitOutcome
  /-- 429 "Too many attempts." -/
  | rateLimited : SubmitOutcome
  /-- 404 "Challenge not found". -/
  | challengeNotFound : SubmitOutcome
  /-- 400 "Only final flag order 1 is valid for this challenge". -/
  | invalidFlagOrder : SubmitOutcome
  /-- 400 "This challenge does not have exactly 1 final flag configured". -/
  | notExactlyOneFlag : SubmitOutcome
  /-- 404 "Flag {flag_order} not found for this challenge". -/
  | flagNotFound : SubmitOutcome
  /-- "Flag is incorrect. Try again!" (with a progress snapshot). -/
  | incorrect : SubmitOutcome
  /-- "You have already submitted this flag." with `points`. -/
  | alreadyScored : Int → SubmitOutcome
  /-- "Final flag submitted and pending admin approval." with
  `pending_points`. -/
  | pendingApproval : Int → SubmitOutcome
deriving Repr, DecidableEq

/-- Autoincrement primary key for a new `Score` row. -/
def freshScoreId (scores : List ScoreRow) : Nat :=
  (scores.map (·.id)).foldr max 0 + 1

/-- Result of a submission: the outcome, the database after commit, and the
submitting user's rate-limit tracker list after the call. -/
structure SubmitResult where
  outcome : SubmitOutcome
  db : DB
  tracker : List Nat
deriving Repr, DecidableEq

/-- `_submit_flag_internal(request, challenge_id, submitted_flag, flag_order)`
(routes/api.py lines 34–118).  `challenge_id` is the JSON value (`none` =
absent); Python's `not challenge_id` is also true for `0`.  `tracker` is this
user's `_submission_tracker` entry. -/
def submit_flag_internal (db : DB) (tracker : List Nat) (now : Nat)
    (user : UserRow) (challenge_id : Option Nat) (submitted_flag : String)
    (flag_order : Option Int := none) : SubmitResult :=
  -- Event active?
  if ¬db.config.event_active then
    ⟨.eventClosed, db, tracker⟩
  -- `if not challenge_id or not submitted_flag`
  else if challenge_id.getD 0 == 0 || submitted_flag == "" then
    ⟨.missingParams, db, tracker⟩
  else
    let (allowed, purged) := check_rate_limit now tracker
    if ¬allowed then
      ⟨.rateLimited, db, purged⟩
    else
      let tracker := record_attempt now purged
      match db.challenges.find? (fun c => c.id == challenge_id.getD 0) with
      | none => ⟨.challengeNotFound, db, tracker⟩
      | some challenge =>
        -- Resolve which flag to check
        let resolved : SubmitOutcome ⊕ (Option FlagRow × Bool) :=
          match flag_order with
          | some fo =>
            if fo ≠ 1 then .inl .invalidFlagOrder
            else if challenge.flags.length ≠ 1 then .inl .notExactlyOneFlag
            else
              match db.allFlags.find?
                  (fun f => f.challenge_id == challenge.id && f.flag_order == some fo) with
              | none => .inl .flagNotFound
              | some f => .inr (some f, validate_flag f.flag_content submitted_flag)
          | none =>
            match challenge.flags.find?
                (fun f => validate_flag f.flag_content submitted_flag) with
            | none => .inr (none, false)
            | some f => .inr (some f, true)
        match resolved with
        | .inl out => ⟨out, db, tracker⟩
        | .inr (matching_flag, is_correct) =>
          if ¬is_correct then
            let sub : SubmissionRow :=
              { user_id := user.id
                challenge_id := challenge_id.getD 0
                flag_id := matching_flag.map (·.id)
                submitted_flag := submitted_flag
                is_correct := false
                submitted_at := now
                points_awarded := 0 }
            ⟨.incorrect, { db with submissions := db.submissions ++ [sub] }, tracker⟩
          else
            match matching_flag with
            | none => ⟨.incorrect, db, tracker⟩  -- unreachable: is_correct forces a flag
            | some mflag =>
              -- Already submitted?
              if (db.scores.find?
                    (fun s => s.user_id == user.id && s.flag_id == mflag.id)).isSome then
                ⟨.alreadyScored 0, db, tracker⟩
              else
                let points := mflag.points_value
                let sub : SubmissionRow :=
                  { user_id := user.id
                    challenge_id := challenge_id.getD 0
                    flag_id := some mflag.id
                    submitted_flag := submitted_flag
                    is_correct := true
                    submitted_at := now
                    points_awarded := 0 }
                let score : ScoreRow :=
                  { id := freshScoreId db.scores
                    user_id := user.id
                    challenge_id := challenge_id.getD 0
                    flag_id := mflag.id
                    points := points
                    flag_points := 0
                    explanation_points := 0
                    is_approved := false
                    approved_by := none
                    approved_at := none
                    leaderboard_visible := false }
                ⟨.pendingApproval points,
                  { db with
                      submissions := db.submissions ++ [sub]
                      scores := db.scores ++ [score] },
                  tracker⟩

/-! ## Challenge catalog maxima (challenge_catalog.py)

`get_catalog_by_order()` maps a challenge's `order_position` to its static
catalog entry; approval reads `flag_points_max` and `explanation_points_max`
(`cfg.get(..., 0)` defaults to `0` for an order outside the catalog or a
missing challenge). -/

/-- `(flag_points_max, explanation_points_max)` by catalog `order`. -/
def catalogMaxima (n : Nat) : Int × Int :=
  if n == 1 then (1, 1)
  else if n == 2 then (1, 2)
  else if n == 3 then (2, 2)
  else if n == 4 then (2, 1)
  else if n == 5 then (2, 1)
  else (0, 0)

/-! ## Approval and rejection (routes/evaluator.py lines 91–156)

`routes/admin.py` lines 82–129 perform the identical database change (same
clamping, same field writes, same recompute for approval; same delete for
rejection), so one embedding covers both.  The HTTP redirect/flash plumbing
is dropped; the state change is what the claims are about. -/

/-- The category maxima used by approval: the catalog entry keyed by the
challenge's `order_position` (`cfg.get("flag_points_max", 0)` /
`cfg.get("explanation_points_max", 0)`, with `0` defaults when the challenge
row or the catalog entry is missing). -/
def categoryMaxima (db : DB) (score : ScoreRow) : Int × Int :=
  match db.challenges.find? (fun c => c.id == score.challenge_id) with
  | none => (0, 0)
  | some challenge => catalogMaxima challenge.order_position

/-- `approve_score(score_id, flag_points, explanation_points)`
(routes/evaluator.py lines 91–137): look up the entry (silently no-op when it
no longer exists), clamp both awards to `[0, category_max]` from the catalog,
set `points = sum`, mark approved with the approver's id and timestamp, make
it leaderboard-visible, then recompute the owning participant's cached
`total_points` as their approved-points sum (skipped if the user row is
missing). -/
def approve_score (db : DB) (approver : UserRow) (score_id : Nat)
    (flag_points explanation_points : Int) (now : Nat) : DB :=
  match db.scores.find? (fun s => s.id == score_id) with
  | none => db
  | some score =>
    let cfg : Int × Int := categoryMaxima db score
    let flag_pts := max 0 (min flag_points cfg.1)
    let expl_pts := max 0 (min explanation_points cfg.2)
    let total := flag_pts + expl_pts
    let scores' := db.scores.map (fun s =>
      if s.id == score_id then
        { s with
            flag_points := flag_pts
            explanation_points := expl_pts
            points := total
            is_approved := true
            approved_by := some approver.id
            approved_at := some now
            leaderboard_visible := true }
      else s)
    -- db.flush() makes the change visible to the SUM query, then the cached
    -- total is recomputed from the updated scores.
    let users' := db.users.map (fun u =>
      if u.id == score.user_id then
        { u with total_points := get_total_points scores' score.user_id }
      else u)
    { db with scores := scores', users := users' }

/-- `reject_score(score_id)` (routes/evaluator.py lines 140–156): delete the
entry if it exists (no filter on `is_approved`, no recomputation of any
cached total), silently no-op otherwise. -/
def reject_score (db : DB) (score_id : Nat) : DB :=
  match db.scores.find? (fun s => s.id == score_id) with
  | none => db
  | some _ => { db with scores := db.scores.filter (fun s => ¬s.id == score_id) }

/-! ## Leaderboard (routes/api.py lines 217–267) -/

/-- The comparison on tie-break timestamps induced by
`x[2] or datetime.max`: a missing timestamp is the maximal sentinel. -/
def optTimeLe : Option Nat → Option Nat → Bool
  | _, none => true
  | none, some _ => false
  | some a, some b => a ≤ b

/-- The sort key order of `scored.sort(key=lambda x: (-x[1], x[2] or
datetime.max))`: ascending `-points` (so descending points), then ascending
timestamp with the maximal sentinel. -/
def lbKeyLe (a b : Int × Option Nat) : Bool :=
  b.1 < a.1 || (a.1 == b.1 && optTimeLe a.2 b.2)

/-- Stable insertion of `x` into `l`: `x` goes after every element that
compares `≤ x`, matching the stability of Python's `list.sort`. -/
def stableInsert (le : α → α → Bool) (x : α) : List α → List α
  | [] => [x]
  | y :: ys => if le y x then y :: stableInsert le x ys else x :: y :: ys

/-- Stable sort by the boolean order `le` (Python `list.sort` is stable). -/
def stableSort (le : α → α → Bool) (l : List α) : List α :=
  l.foldl (fun acc x => stableInsert le x acc) []

/-- One entry of the computed leaderboard: the user row together with the
recomputed `pts` and `last_time` of `get_leaderboard`'s `scored` triples. -/
structure LBEntry where
  user : UserRow
  pts : Int
  last_time : Option Nat
deriving Repr, DecidableEq

/-- The ranking core of `get_leaderboard` (routes/api.py lines 231–248):
filter out admins and evaluators, recompute each remaining user's approved
total and latest correct-submission time, sort by the key
`(-points, last_time or datetime.max)`, truncate to the top 100. -/
def leaderboardRows (db : DB) : List LBEntry :=
  let users := db.users.filter (fun u => !u.is_admin && !u.is_evaluator)
  let scored := users.map (fun u =>
    LBEntry.mk u (get_total_points db.scores u.id)
      (get_last_correct_submission_time db.submissions u.id))
  (stableSort (fun a b => lbKeyLe (a.pts, a.last_time) (b.pts, b.last_time))
    scored).take 100

/-- `get_leaderboard` (routes/api.py lines 217–267) including its two exposure
gates; returns the ranked entries, or `none` on a 403.  (The opportunistic
refresh of each ranked user's cached `total_points` column is not modelled:
no claim reads it.) -/
def get_leaderboard (db : DB) (viewer : Option UserRow) :
    Option (List LBEntry) :=
  let is_admin_viewer := (viewer.map (·.is_admin)).getD false
  if ¬db.config.event_active ∧ ¬is_admin_viewer then none
  else if ¬db.config.leaderboard_public ∧ ¬is_admin_viewer then none
  else some (leaderboardRows db)

/-! ## Personalized flags (models.py lines 254–285)

`generate_user_flags(user, db)` walks every flag row; the HMAC-SHA256 token
`hmac.new(SECRET_KEY, f"{user.id}:{flag.id}:{user.username}",
sha256).hexdigest()[:12]` comes from Python's `hmac`/`hashlib` library, so
the token derivation is a parameter `tok` of the embedding (any function of
the user id, flag id and username); nothing the claims state depends on the
token's value. -/

/-- The flag-string construction inside the loop of `generate_user_flags`:
inject the token before the closing brace of a `CTF{...}` literal, else the
synthesized fallback format. -/
def uniqueFlagValue (token : String) (uid : Nat) (flag : FlagRow) : String :=
  let content := flag.flag_content
  if strStartsWith (strUpper content) "CTF\x7b" && strEndsWith content "\x7d" then
    "CTF\x7b" ++ (strDropRight (strDrop content 4) 1) ++ "_" ++ token ++ "\x7d"
  else
    "CTF\x7bch" ++ toString flag.challenge_id ++ "_u" ++ toString uid
      ++ "_" ++ token ++ "\x7d"

/-- The row `db.add(UserFlag(...))` inserts for one flag. -/
def newUserFlagRow (tok : Nat → Nat → String → String) (user : UserRow)
    (flag : FlagRow) : UserFlagRow :=
  { user_id := user.id
    flag_id := flag.id
    challenge_id := flag.challenge_id
    flag_value := uniqueFlagValue (tok user.id flag.id user.username)
      user.id flag }

/-- The loop body over the accumulated `user_flags` table: skip the flag if a
row for `(user.id, flag.id)` already exists, otherwise add the derived row.
(SQLAlchemy autoflush makes rows added earlier in the loop visible to the
later existence queries, hence the fold threads the table.) -/
def generateOneUserFlag (tok : Nat → Nat → String → String) (user : UserRow)
    (ufs : List UserFlagRow) (flag : FlagRow) : List UserFlagRow :=
  if (ufs.find? (fun r => r.user_id == user.id && r.flag_id == flag.id)).isSome then
    ufs
  else
    ufs ++ [newUserFlagRow tok user flag]

/-- `generate_user_flags(user, db)` (models.py lines 254–285). -/
def generate_user_flags (tok : Nat → Nat → String → String) (user : UserRow)
    (db : DB) : DB :=
  { db with userFlags := db.allFlags.foldl (generateOneUserFlag tok user) db.userFlags }

/-! ## Round 1 — timed MCQ quiz (routes/round1.py)

`QUESTIONS`, `DURATION_MINUTES`, `MAX_TAB_SWITCHES` and `POINTS_PER_Q` are
loaded from the data file `round1_questions.json`, which is not source code;
they are parameters of the embedding.  A question is represented by its
correct option index (the only field scoring reads).  The JSON `answers`
dict (`str(pos) -> selected`) is an association list with unique keys in
insertion order; `question_order` is the stored shuffled list of question
indices. -/

/-- Quiz configuration from `round1_questions.json`: the list of correct
option indices (one per question), the duration in minutes, the maximum
tab-switch count, and the points per question. -/
structure QuizConfig where
  questions : List Nat
  durationMinutes : Nat
  maxTabSwitches : Nat
  pointsPerQ : Nat
deriving Repr, DecidableEq

/-- `QuizAttempt` row (models.py lines 314–335), with the two JSON text
columns decoded. -/
structure QuizAttempt where
  started_at : Nat
  finished_at : Option Nat
  answers : List (Nat × Nat)
  score : Nat
  tab_switches : Nat
  is_submitted : Bool
  question_order : List Nat
deriving Repr, DecidableEq

/-- `_compute_score(attempt)` (round1.py lines 56–66): for each saved answer
`(pos, selected)`, map `pos` through the stored order to the question index
and award `POINTS_PER_Q` when `selected` equals that question's answer.
(Python would raise `IndexError` on an out-of-range position; the saved
positions come from the quiz page and lie in range, and no claim evaluates
the function outside it — out-of-range positions score `0` here.) -/
def compute_score (cfg : QuizConfig) (a : QuizAttempt) : Nat :=
  a.answers.foldl
    (fun acc (p : Nat × Nat) =>
      match a.question_order.get? p.1 with
      | none => acc
      | some qIdx =>
        match cfg.questions.get? qIdx with
        | none => acc
        | some correct => if p.2 == correct then acc + cfg.pointsPerQ else acc)
    0

/-- `_time_remaining(attempt)` (round1.py lines 69–75): seconds left until
`started_at + DURATION_MINUTES`, `0` once submitted or past the deadline. -/
def time_remaining (cfg : QuizConfig) (now : Nat) (a : QuizAttempt) : Nat :=
  if a.is_submitted then 0
  else (a.started_at + cfg.durationMinutes * 60) - now

/-- JSON-dict upsert `answers[str(pos)] = int(selected)`: replace in place if
the key exists, else append (Python dicts keep insertion order). -/
def upsertAnswer (pos sel : Nat) : List (Nat × Nat) → List (Nat × Nat)
  | [] => [(pos, sel)]
  | (k, v) :: rest =>
    if k == pos then (pos, sel) :: rest else (k, v) :: upsertAnswer pos sel rest

/-- Outcomes of the `save`, `tab-switch` and `submit` endpoints, one per
`return`. -/
inductive QuizOutcome where
  /-- 400 "Quiz already submitted or not started" / "Already submitted" /
  redirect with "Quiz already submitted." -/
  | alreadyDone : QuizOutcome
  /-- submit: redirect with "No quiz attempt found." -/
  | noAttempt : QuizOutcome
  /-- 400 "Time expired" with `auto_submitted: true`. -/
  | timeExpired : QuizOutcome
  /-- 400 "Missing pos or selected". -/
  | missingField : QuizOutcome
  /-- save: `ok: true` with the answered count. -/
  | saved : Nat → QuizOutcome
  /-- tab-switch: the new counter and whether the attempt auto-submitted. -/
  | tabCounted : Nat → Bool → QuizOutcome
  /-- submit: redirect with "Please answer all questions" and the counts. -/
  | unanswered : Nat → QuizOutcome
  /-- submit: "Quiz submitted successfully!". -/
  | submitted : QuizOutcome
deriving Repr, DecidableEq

/-- `save_answer` (round1.py lines 185–215) on the caller's attempt
(`none` = no attempt row).  Returns the outcome and the attempt after
commit. -/
def save_answer (cfg : QuizConfig) (now : Nat) (attempt : Option QuizAttempt)
    (pos selected : Option Nat) : QuizOutcome × Option QuizAttempt :=
  match attempt with
  | none => (.alreadyDone, none)
  | some a =>
    if a.is_submitted then (.alreadyDone, some a)
    else if time_remaining cfg now a == 0 then
      let a' := { a with
        is_submitted := true
        finished_at := some now
        score := compute_score cfg a }
      (.timeExpired, some a')
    else
      match pos, selected with
      | some p, some s =>
        let answers' := upsertAnswer p s a.answers
        (.saved answers'.length, some { a with answers := answers' })
      | _, _ => (.missingField, some a)

/-- `record_tab_switch` (round1.py lines 220–246): no deadline check —
increment the counter, auto-submit on reaching `MAX_TAB_SWITCHES`. -/
def record_tab_switch (cfg : QuizConfig) (now : Nat)
    (attempt : Option QuizAttempt) : QuizOutcome × Option QuizAttempt :=
  match attempt with
  | none => (.alreadyDone, none)
  | some a =>
    if a.is_submitted then (.alreadyDone, some a)
    else
      let a := { a with tab_switches := a.tab_switches + 1 }
      if a.tab_switches ≥ cfg.maxTabSwitches then
        let a' := { a with
          is_submitted := true
          finished_at := some now
          score := compute_score cfg a }
        (.tabCounted a'.tab_switches true, some a')
      else
        (.tabCounted a.tab_switches false, some a)

/-- `submit_quiz` (round1.py lines 251–278): no deadline check — reject when
already submitted or when fewer answers than questions are saved, otherwise
submit with the computed score. -/
def submit_quiz (cfg : QuizConfig) (now : Nat)
    (attempt : Option QuizAttempt) : QuizOutcome × Option QuizAttempt :=
  match attempt with
  | none => (.noAttempt, none)
  | some a =>
    if a.is_submitted then (.alreadyDone, some a)
    else if a.answers.length < cfg.questions.length then
      (.unanswered a.answers.length, some a)
    else
      let a' := { a with
        is_submitted := true
        finished_at := some now
        score := compute_score cfg a }
      (.submitted, some a')

/-! ## Predicates and spec-side definitions used by the claims -/

/-- The per-`(user_id, flag_id)` uniqueness constraint of the `scores` table
(`UniqueConstraint("user_id", "flag_id", name="user_flag_unique")`): no two
rows share the pair. -/
def scoresUniquePerUserFlag (scores : List ScoreRow) : Prop :=
  scores.Pairwise (fun a b => ¬(a.user_id = b.user_id ∧ a.flag_id = b.flag_id))

/-- Whether a submission outcome judged the submitted text correct (both the
already-scored and the pending-approval outcome arise only from a validated
flag). -/
def judgedCorrect : SubmitOutcome → Bool
  | .alreadyScored _ => true
  | .pendingApproval _ => true
  | _ => false

/-- Spec-side (claim C3): the *earliest* correct-submission timestamp of a
user, `MIN(submitted_at)` over their correct submissions. -/
def get_first_correct_submission_time (subs : List SubmissionRow) (uid : Nat) :
    Option Nat :=
  ((subs.filter (fun s => s.user_id == uid && s.is_correct)).map
    (·.submitted_at)).min?

/-- Boolean pairwise check over adjacent-closed orderings; `pairwiseB rel l`
holds iff every earlier element relates to every later one. -/
def pairwiseB (rel : α → α → Bool) : List α → Bool
  | [] => true
  | a :: l => l.all (rel a) && pairwiseB rel l

/-- Spec-side (claim C3): the ordering the claim asserts — strictly
descending points, ties by ascending *earliest* qualifying timestamp with
the maximal sentinel for absent timestamps. -/
def claimOrderedByEarliest (db : DB) (rows : List LBEntry) : Bool :=
  pairwiseB (fun a b =>
    decide (b.pts < a.pts) ||
    (a.pts == b.pts &&
      optTimeLe (get_first_correct_submission_time db.submissions a.user.id)
        (get_first_correct_submission_time db.submissions b.user.id))) rows

/-- The code-side ordering actually used by `get_leaderboard`'s sort key:
descending points, ties by ascending *latest* correct-submission timestamp
with the maximal sentinel. -/
def codeOrderedByLatest (rows : List LBEntry) : Bool :=
  pairwiseB (fun a b => lbKeyLe (a.pts, a.last_time) (b.pts, b.last_time)) rows

/-- Spec-side (claim C8): validation as the claim words it — the pattern
interpreted is the *remainder* of the content after the `"REGEX:"` tag
(`content.drop 6`), rather than the content with every occurrence of the tag
removed. -/
def claimed_validate (flag_content submitted_flag : String) : Bool :=
  if strLower flag_content == strLower submitted_flag then true
  else if strStartsWith flag_content "REGEX:" then
    match reMatch (strDrop flag_content 6) submitted_flag with
    | some true => true
    | _ => false
  else false

/-- Number of stored `UserFlag` rows for one `(user_id, flag_id)` pair. -/
def countUserFlagRows (ufs : List UserFlagRow) (uid fid : Nat) : Nat :=
  (ufs.filter (fun r => r.user_id == uid && r.flag_id == fid)).length

/-- Sortedness of a list with respect to a boolean order. -/
def SortedBy (le : α → α → Bool) (l : List α) : Prop :=
  l.Pairwise (fun a b => le a b = true)

/-- Whether a `UserFlag` row for the pair is stored (the loop's existence
check in `generate_user_flags`). -/
def hasUserFlag (ufs : List UserFlagRow) (uid fid : Nat) : Bool :=
  (ufs.find? (fun r => r.user_id == uid && r.flag_id == fid)).isSome

/-! ## Concrete data for witnesses and counterexamples -/

/-- An admin/approver row. -/
def exEva : UserRow := ⟨9, "eva", 0, 0, true, false, true, none⟩

/-- A participant. -/
def exAlice : UserRow := ⟨1, "alice", 0, 0, false, false, true, some 9⟩

/-- A second participant. -/
def exBob : UserRow := ⟨2, "bob", 0, 0, false, false, true, some 9⟩

/-- A participant whose cached total is 4. -/
def exCarol : UserRow := ⟨3, "carol", 0, 4, false, false, true, some 9⟩

/-- The single final flag of the example challenge, worth 4 points. -/
def exFlag1 : FlagRow := ⟨10, 1, "CTF\x7babc\x7d", some 1, 4⟩

/-- A challenge at catalog order 3 (category maxima 2/2). -/
def exChallenge : ChallengeRow := ⟨1, 4, 3, true, [exFlag1]⟩

/-- Alice's pending Score row for `exFlag1`. -/
def exPendingScore : ScoreRow := ⟨5, 1, 1, 10, 4, 0, 0, false, none, none, false⟩

/-- Carol's approved Score row worth 4 points. -/
def exApprovedScore : ScoreRow :=
  ⟨7, 3, 1, 10, 4, 2, 2, true, some 9, some 50, true⟩

/-- Event active, round 3, leaderboard public. -/
def exConfig : SiteConfigRow := ⟨3, true, true⟩

/-- Alice's recorded correct submission. -/
def exSubmissionAlice : SubmissionRow :=
  ⟨1, 1, some 10, "CTF\x7babc\x7d", true, 1, 0⟩

/-- Base example database: Alice already has a pending score for the only
flag of the only challenge. -/
def exDB : DB :=
  ⟨[exEva, exAlice], [exChallenge], [exPendingScore], [exSubmissionAlice],
    [], exConfig⟩

/-- Database for the C4 counterexample: Carol's score is *approved* and her
cached total (4) is correct before the rejection. -/
def cexDB4 : DB := ⟨[exCarol], [exChallenge], [exApprovedScore], [], [], exConfig⟩

/-- Alice's approved score in the leaderboard counterexample. -/
def cexScoreAlice : ScoreRow := ⟨1, 1, 1, 10, 4, 2, 2, true, some 9, some 20, true⟩

/-- Bob's approved score in the leaderboard counterexample. -/
def cexScoreBob : ScoreRow := ⟨2, 2, 1, 10, 4, 2, 2, true, some 9, some 21, true⟩

/-- Alice's first correct submission, at time 1. -/
def cexSubA1 : SubmissionRow := ⟨1, 1, some 10, "CTF\x7babc\x7d", true, 1, 0⟩

/-- Alice's second correct submission, at time 10. -/
def cexSubA10 : SubmissionRow := ⟨1, 1, some 10, "CTF\x7babc\x7d", true, 10, 0⟩

/-- Bob's only correct submission, at time 5. -/
def cexSubB5 : SubmissionRow := ⟨2, 1, some 10, "CTF\x7babc\x7d", true, 5, 0⟩

/-- Database for the C3 counterexample: Alice and Bob both have 4 approved
points; Alice submitted first (earliest 1) but also last (latest 10), Bob's
only submission is at 5. -/
def cexDB3 : DB :=
  ⟨[exAlice, exBob], [exChallenge], [cexScoreAlice, cexScoreBob],
    [cexSubA1, cexSubA10, cexSubB5], [], exConfig⟩

/-- Quiz data: three questions with answers 0, 1, 2; 45 minutes; at most 3
tab switches; 1 point per question. -/
def cexQuizCfg : QuizConfig := ⟨[0, 1, 2], 45, 3, 1⟩

/-- An unsubmitted attempt started at time 0 with one saved answer and no
violations. -/
def cexQuizAttempt : QuizAttempt := ⟨0, none, [(0, 0)], 0, 0, false, [2, 0, 1]⟩

/-- A token-derivation stand-in for witnesses (the HMAC itself is library
code outside the repository). -/
def exTok : Nat → Nat → String → String := fun _ _ _ => "ab12cd34ef56"

/-- An unsubmitted attempt with every question answered. -/
def cexQuizAttemptFull : QuizAttempt :=
  ⟨0, none, [(0, 2), (1, 0), (2, 1)], 0, 0, false, [2, 0, 1]⟩

/-- A submitted attempt. -/
def cexQuizSubmitted : QuizAttempt :=
  ⟨0, some 100, [(0, 0)], 0, 1, true, [2, 0, 1]⟩

/-- An in-progress attempt one violation away from the maximum. -/
def cexQuizAlmostMax : QuizAttempt :=
  ⟨0, none, [(0, 0)], 0, 2, false, [2, 0, 1]⟩

/-- The base example database with the event switched off. -/
def exDBClosed : DB := { exDB with config := ⟨3, false, true⟩ }

/-- A stored personalized-flag row for Alice. -/
def exUF : UserFlagRow := ⟨1, 10, 1, "CTF\x7babc_ab12cd34ef56\x7d"⟩

/-- The base example database with a personalized-flag row added — every
other table agrees with `exDB`. -/
def exDBWithUF : DB := { exDB with userFlags := [exUF] }

/-! ## Helper lemmas -/

theorem pairwiseB_eq_true_iff (rel : α → α → Bool) :
    ∀ l : List α, pairwiseB rel l = true ↔ l.Pairwise (fun a b => rel a b = true)
  | [] => by simp [pairwiseB]
  | a :: l => by
    simp [pairwiseB, List.pairwise_cons, pairwiseB_eq_true_iff rel l,
      List.all_eq_true, and_comm]

theorem find?_map_of_pred_comm (g : α → α) (p : α → Bool)
    (hpg : ∀ a, p (g a) = p a) :
    ∀ l : List α, (l.map g).find? p = (l.find? p).map g
  | [] => rfl
  | a :: l => by
    by_cases h : p a = true
    · rw [List.map_cons, List.find?_cons_of_pos _ (by rw [hpg]; exact h),
        List.find?_cons_of_pos _ h]
      rfl
    · rw [List.map_cons,
        List.find?_cons_of_neg _ (by rw [hpg]; simpa using h),
        List.find?_cons_of_neg _ (by simpa using h),
        find?_map_of_pred_comm g p hpg l]

theorem mem_stableInsert (le : α → α → Bool) (x : α) :
    ∀ l (z : α), z ∈ stableInsert le x l → z = x ∨ z ∈ l
  | [], z, hz => by simpa [stableInsert] using hz
  | y :: ys, z, hz => by
    by_cases h : le y x = true
    · simp only [stableInsert, if_pos h, List.mem_cons] at hz
      rcases hz with hz | hz
      · exact Or.inr (by simp [hz])
      · rcases mem_stableInsert le x ys z hz with h' | h'
        · exact Or.inl h'
        · exact Or.inr (by simp [h'])
    · simp only [stableInsert, if_neg h, List.mem_cons] at hz
      rcases hz with hz | hz
      · exact Or.inl hz
      · exact Or.inr (by simpa using hz)

theorem sortedBy_stableInsert (le : α → α → Bool)
    (total : ∀ a b, le a b = true ∨ le b a = true)
    (trans : ∀ a b c, le a b = true → le b c = true → le a c = true)
    (x : α) :
    ∀ l, SortedBy le l → SortedBy le (stableInsert le x l)
  | [], _ => by simp [stableInsert, SortedBy]
  | y :: ys, h => by
    rw [SortedBy, List.pairwise_cons] at h
    obtain ⟨hy, hys⟩ := h
    by_cases hyx : le y x = true
    · rw [stableInsert, if_pos hyx]
      rw [SortedBy, List.pairwise_cons]
      refine ⟨fun z hz => ?_, sortedBy_stableInsert le total trans x ys hys⟩
      rcases mem_stableInsert le x ys z hz with rfl | hmem
      · exact hyx
      · exact hy z hmem
    · rw [stableInsert, if_neg hyx]
      have hxy : le x y = true := (total x y).resolve_right (by simpa using hyx)
      rw [SortedBy, List.pairwise_cons]
      exact ⟨fun z hz => by
        rcases List.mem_cons.mp hz with rfl | hmem
        · exact hxy
        · exact trans x y z hxy (hy z hmem),
        List.pairwise_cons.mpr ⟨hy, hys⟩⟩

theorem sortedBy_foldl_stableInsert (le : α → α → Bool)
    (total : ∀ a b, le a b = true ∨ le b a = true)
    (trans : ∀ a b c, le a b = true → le b c = true → le a c = true) :
    ∀ (l acc : List α), SortedBy le acc →
      SortedBy le (l.foldl (fun acc x => stableInsert le x acc) acc)
  | [], _, hacc => hacc
  | x :: l, acc, hacc =>
    sortedBy_foldl_stableInsert le total trans l _
      (sortedBy_stableInsert le total trans x acc hacc)

theorem sortedBy_stableSort (le : α → α → Bool)
    (total : ∀ a b, le a b = true ∨ le b a = true)
    (trans : ∀ a b c, le a b = true → le b c = true → le a c = true)
    (l : List α) : SortedBy le (stableSort le l) :=
  sortedBy_foldl_stableInsert le total trans l [] (by simp [SortedBy])

theorem SortedBy.take (le : α → α → Bool) (l : List α) (n : Nat)
    (h : SortedBy le l) : SortedBy le (l.take n) :=
  List.Pairwise.sublist (List.take_sublist n l) h

theorem optTimeLe_total (a b : Option Nat) :
    optTimeLe a b = true ∨ optTimeLe b a = true := by
  rcases a with _ | a <;> rcases b with _ | b <;> simp [optTimeLe] <;> omega

theorem optTimeLe_trans (a b c : Option Nat)
    (h₁ : optTimeLe a b = true) (h₂ : optTimeLe b c = true) :
    optTimeLe a c = true := by
  rcases a with _ | a <;> rcases b with _ | b <;> rcases c with _ | c <;>
    simp [optTimeLe] at * <;> omega

theorem lbKeyLe_total (a b : Int × Option Nat) :
    lbKeyLe a b = true ∨ lbKeyLe b a = true := by
  unfold lbKeyLe
  rcases lt_trichotomy a.1 b.1 with h | h | h
  · right; simp [h]
  · rcases optTimeLe_total a.2 b.2 with ht | ht
    · left; simp [h, ht]
    · right; simp [h.symm, ht]
  · left; simp [h]

theorem lbKeyLe_trans (a b c : Int × Option Nat)
    (h₁ : lbKeyLe a b = true) (h₂ : lbKeyLe b c = true) :
    lbKeyLe a c = true := by
  unfold lbKeyLe at *
  simp only [Bool.or_eq_true, Bool.and_eq_true, decide_eq_true_eq,
    beq_iff_eq] at *
  rcases h₁ with h₁ | ⟨h₁, h₁'⟩ <;> rcases h₂ with h₂ | ⟨h₂, h₂'⟩
  · exact Or.inl (by omega)
  · exact Or.inl (by omega)
  · exact Or.inl (by omega)
  · exact Or.inr ⟨by omega, optTimeLe_trans _ _ _ h₁' h₂'⟩

theorem catalogMaxima_nonneg (n : Nat) :
    0 ≤ (catalogMaxima n).1 ∧ 0 ≤ (catalogMaxima n).2 := by
  unfold catalogMaxima
  repeat' split
  all_goals norm_num

theorem categoryMaxima_nonneg (db : DB) (s : ScoreRow) :
    0 ≤ (categoryMaxima db s).1 ∧ 0 ≤ (categoryMaxima db s).2 := by
  unfold categoryMaxima
  split
  · norm_num
  · exact catalogMaxima_nonneg _

/-- The per-row update `approve_score` applies to the looked-up entry. -/
theorem approve_score_scores_eq (db : DB) (approver : UserRow) (sid : Nat)
    (fp ep : Int) (now : Nat) (s0 : ScoreRow)
    (h : db.scores.find? (fun s => s.id == sid) = some s0) :
    (approve_score db approver sid fp ep now).scores =
      db.scores.map (fun s =>
        if s.id == sid then
          { s with
              flag_points := max 0 (min fp (categoryMaxima db s0).1)
              explanation_points := max 0 (min ep (categoryMaxima db s0).2)
              points := max 0 (min fp (categoryMaxima db s0).1)
                + max 0 (min ep (categoryMaxima db s0).2)
              is_approved := true
              approved_by := some approver.id
              approved_at := some now
              leaderboard_visible := true }
        else s) := by
  unfold approve_score
  rw [h]

/-! ## Claim theorems -/

/-- **C2.** For every `approve(scoreId, flagPoints, explanationPoints)` call
on an existing entry, with any integer inputs (negative or above the maxima
included), the stored entry satisfies `0 ≤ flag_points ≤ flagMax`,
`0 ≤ explanation_points ≤ explanationMax` and
`points = flag_points + explanation_points`, is marked approved with the
approver's identity and timestamp and made leaderboard-visible; the
operation is a total function (no error is raised on out-of-range input). -/
theorem approve_score_clamps_and_marks_approved
    (db : DB) (approver : UserRow) (sid : Nat) (fp ep : Int) (now : Nat)
    (s0 : ScoreRow) (h : db.scores.find? (fun s => s.id == sid) = some s0) :
    ∃ s', (approve_score db approver sid fp ep now).scores.find?
        (fun s => s.id == sid) = some s' ∧
      0 ≤ s'.flag_points ∧ s'.flag_points ≤ (categoryMaxima db s0).1 ∧
      0 ≤ s'.explanation_points ∧
      s'.explanation_points ≤ (categoryMaxima db s0).2 ∧
      s'.points = s'.flag_points + s'.explanation_points ∧
      s'.is_approved = true ∧ s'.approved_by = some approver.id ∧
      s'.approved_at = some now ∧ s'.leaderboard_visible = true := by
  rw [approve_score_scores_eq db approver sid fp ep now s0 h]
  rw [find?_map_of_pred_comm _ _ (fun a => by
    by_cases ha : (a.id == sid) = true <;> simp [ha]), h]
  have hpos : (s0.id == sid) = true := by
    have := List.find?_some h
    simpa using this
  refine ⟨_, rfl, ?_⟩
  simp only [if_pos hpos]
  obtain ⟨h1, h2⟩ := categoryMaxima_nonneg db s0
  refine ⟨le_max_left 0 _, max_le h1 (min_le_right _ _),
    le_max_left 0 _, max_le h2 (min_le_right _ _), ?_, ?_, ?_, ?_, ?_⟩ <;> trivial

theorem scoresUnique_append (l : List ScoreRow) (x : ScoreRow)
    (h : scoresUniquePerUserFlag l)
    (hx : l.find? (fun s => s.user_id == x.user_id && s.flag_id == x.flag_id)
      = none) :
    scoresUniquePerUserFlag (l ++ [x]) := by
  rw [scoresUniquePerUserFlag, List.pairwise_append]
  refine ⟨h, List.pairwise_singleton _ _, ?_⟩
  intro a ha b hb
  have hb' : b = x := by simpa using hb
  subst hb'
  have hp := List.find?_eq_none.mp hx a ha
  simp only [Bool.and_eq_true, beq_iff_eq, not_and] at hp
  rintro ⟨h1, h2⟩
  exact hp h1 h2

/-- Across every branch of `_submit_flag_internal`, the per-`(user, flag)`
uniqueness of the `scores` table is preserved: the only insertion happens
after the existence check for the matched flag came back empty. -/
theorem submit_preserves_scoresUnique (db : DB) (tracker : List Nat)
    (now : Nat) (user : UserRow) (cid : Option Nat) (text : String)
    (fo : Option Int) (h : scoresUniquePerUserFlag db.scores) :
    scoresUniquePerUserFlag
      (submit_flag_internal db tracker now user cid text fo).db.scores := by
  unfold submit_flag_internal
  dsimp only
  repeat' split
  all_goals try exact h
  all_goals rename_i hnone
  all_goals refine scoresUnique_append _ _ h ?_
  all_goals simpa using hnone

/-- A correct submission whose matched flag already has a Score row returns
the already-scored outcome with zero points and leaves the database
unchanged (no new Score row, no Submission row); the rate-limit attempt is
still recorded. -/
theorem submit_already_scored_no_new_row (db : DB) (tracker : List Nat)
    (now : Nat) (user : UserRow) (cid : Nat) (text : String)
    (ch : ChallengeRow) (f : FlagRow) (s0 : ScoreRow)
    (hev : db.config.event_active = true)
    (hcid : cid ≠ 0) (htext : text ≠ "")
    (hrate : (purgeTracker now 60 tracker).length < 5)
    (hch : db.challenges.find? (fun c => c.id == cid) = some ch)
    (hf : ch.flags.find? (fun f => validate_flag f.flag_content text) = some f)
    (hs : db.scores.find?
      (fun s => s.user_id == user.id && s.flag_id == f.id) = some s0) :
    submit_flag_internal db tracker now user (some cid) text none =
      ⟨.alreadyScored 0, db,
        record_attempt now (purgeTracker now 60 tracker)⟩ := by
  unfold submit_flag_internal check_rate_limit
  dsimp only
  rw [if_neg (by simp [hev])]
  rw [if_neg (by simp [hcid, htext])]
  rw [if_neg (by simp [hrate])]
  simp only [Option.getD_some]
  rw [hch]
  simp [hf, hs]

/-- After `approve_score` finds the entry, the users table is the old one
with the owning participant's cached total recomputed from the updated
scores (the `db.flush()` makes the approval visible to the SUM query). -/
theorem approve_score_users_eq (db : DB) (approver : UserRow) (sid : Nat)
    (fp ep : Int) (now : Nat) (s0 : ScoreRow)
    (h : db.scores.find? (fun s => s.id == sid) = some s0) :
    (approve_score db approver sid fp ep now).users =
      db.users.map (fun u =>
        if u.id == s0.user_id then
          { u with total_points :=
              (get_total_points
                (approve_score db approver sid fp ep now).scores s0.user_id) }
        else u) := by
  conv_rhs => rw [approve_score_scores_eq db approver sid fp ep now s0 h]
  unfold approve_score
  rw [h]

/-- Deleting only unapproved rows does not change any user's approved-points
sum. -/
theorem get_total_points_filter_unapproved (sid uid : Nat) (l : List ScoreRow)
    (h : ∀ s ∈ l, s.id = sid → s.is_approved = false) :
    get_total_points (l.filter (fun s => ¬s.id == sid)) uid =
      get_total_points l uid := by
  unfold get_total_points
  rw [List.filter_filter]
  suffices hf : l.filter (fun a =>
      (a.user_id == uid && a.is_approved) && ¬a.id == sid) = l.filter
        (fun s => s.user_id == uid && s.is_approved) by
    rw [hf]
  refine List.filter_congr fun s hs => ?_
  by_cases happ : s.is_approved = true
  · have hid : ¬s.id = sid := fun hid => by
      rw [h s hs hid] at happ
      exact Bool.false_ne_true happ
    simp [hid]
  · have hf : s.is_approved = false := by
      revert happ
      cases s.is_approved <;> simp
    simp [hf]

/-- **C4 (amended).** After every completed approval the affected
participant's cached total equals the sum of their approved score points,
recomputed in the same transaction.  Rejection performs no recomputation:
it leaves the users table untouched; when every row it deletes is
unapproved (a pending entry) the approved-points sum of every participant
is unchanged, so an invariant cached total stays valid — but nothing
recomputes it. -/
theorem cached_total_equals_approved_sum :
    (∀ (db : DB) (approver : UserRow) (sid : Nat) (fp ep : Int) (now : Nat)
        (s0 : ScoreRow) (u0 : UserRow),
      db.scores.find? (fun s => s.id == sid) = some s0 →
      db.users.find? (fun u => u.id == s0.user_id) = some u0 →
      ∃ u', (approve_score db approver sid fp ep now).users.find?
          (fun u => u.id == s0.user_id) = some u' ∧
        u'.total_points = get_total_points
          (approve_score db approver sid fp ep now).scores s0.user_id)
    ∧ (∀ (db : DB) (sid : Nat),
      (∀ s ∈ db.scores, s.id = sid → s.is_approved = false) →
      (reject_score db sid).users = db.users ∧
      ∀ uid, get_total_points (reject_score db sid).scores uid =
        get_total_points db.scores uid) := by
  constructor
  · intro db approver sid fp ep now s0 u0 h hu
    rw [approve_score_users_eq db approver sid fp ep now s0 h]
    rw [find?_map_of_pred_comm _ _ (fun a => by
      by_cases ha : (a.id == s0.user_id) = true <;> simp [ha]), hu]
    have hpos : (u0.id == s0.user_id) = true := by
      have := List.find?_some hu
      simpa using this
    exact ⟨_, rfl, by simp [hpos]⟩
  · intro db sid h
    unfold reject_score
    cases hfind : db.scores.find? (fun s => s.id == sid) with
    | none => exact ⟨rfl, fun uid => rfl⟩
    | some s =>
      exact ⟨rfl, fun uid =>
        get_total_points_filter_unapproved sid uid db.scores h⟩

/-- **C7 (amended).** The precondition checks of `_submit_flag_internal`
short-circuit in this order: event-active, presence of the challenge id and
flag text, the rate limit (the attempt is recorded only once the limit check
passes, before any challenge lookup), challenge existence, then — when a
flag order is given — order validity, the exactly-one-flag check, and flag
existence, each with its own distinct outcome.  In particular a rate-limited
submission returns the rate-limited failure even when the challenge does not
exist. -/
theorem submit_precondition_order :
    (∀ (db : DB) (tracker : List Nat) (now : Nat) (user : UserRow)
        (cid : Option Nat) (text : String) (fo : Option Int),
      db.config.event_active = false →
      submit_flag_internal db tracker now user cid text fo =
        ⟨.eventClosed, db, tracker⟩)
    ∧ (∀ (db : DB) (tracker : List Nat) (now : Nat) (user : UserRow)
        (cid : Option Nat) (text : String) (fo : Option Int),
      db.config.event_active = true →
      (cid.getD 0 == 0 || text == "") = true →
      submit_flag_internal db tracker now user cid text fo =
        ⟨.missingParams, db, tracker⟩)
    ∧ (∀ (db : DB) (tracker : List Nat) (now : Nat) (user : UserRow)
        (cid : Option Nat) (text : String) (fo : Option Int),
      db.config.event_active = true →
      (cid.getD 0 == 0 || text == "") = false →
      ¬(purgeTracker now 60 tracker).length < 5 →
      submit_flag_internal db tracker now user cid text fo =
        ⟨.rateLimited, db, purgeTracker now 60 tracker⟩)
    ∧ (∀ (db : DB) (tracker : List Nat) (now : Nat) (user : UserRow)
        (cid : Option Nat) (text : String) (fo : Option Int),
      db.config.event_active = true →
      (cid.getD 0 == 0 || text == "") = false →
      (purgeTracker now 60 tracker).length < 5 →
      db.challenges.find? (fun c => c.id == cid.getD 0) = none →
      submit_flag_internal db tracker now user cid text fo =
        ⟨.challengeNotFound, db,
          record_attempt now (purgeTracker now 60 tracker)⟩)
    ∧ (∀ (db : DB) (tracker : List Nat) (now : Nat) (user : UserRow)
        (cid : Option Nat) (text : String) (k : Int) (ch : ChallengeRow),
      db.config.event_active = true →
      (cid.getD 0 == 0 || text == "") = false →
      (purgeTracker now 60 tracker).length < 5 →
      db.challenges.find? (fun c => c.id == cid.getD 0) = some ch →
      k ≠ 1 →
      submit_flag_internal db tracker now user cid text (some k) =
        ⟨.invalidFlagOrder, db,
          record_attempt now (purgeTracker now 60 tracker)⟩)
    ∧ (∀ (db : DB) (tracker : List Nat) (now : Nat) (user : UserRow)
        (cid : Option Nat) (text : String) (ch : ChallengeRow),
      db.config.event_active = true →
      (cid.getD 0 == 0 || text == "") = false →
      (purgeTracker now 60 tracker).length < 5 →
      db.challenges.find? (fun c => c.id == cid.getD 0) = some ch →
      ch.flags.length ≠ 1 →
      submit_flag_internal db tracker now user cid text (some 1) =
        ⟨.notExactlyOneFlag, db,
          record_attempt now (purgeTracker now 60 tracker)⟩)
    ∧ (∀ (db : DB) (tracker : List Nat) (now : Nat) (user : UserRow)
        (cid : Option Nat) (text : String) (ch : ChallengeRow),
      db.config.event_active = true →
      (cid.getD 0 == 0 || text == "") = false →
      (purgeTracker now 60 tracker).length < 5 →
      db.challenges.find? (fun c => c.id == cid.getD 0) = some ch →
      ch.flags.length = 1 →
      db.allFlags.find?
        (fun f => f.challenge_id == ch.id && f.flag_order == some 1) = none →
      submit_flag_internal db tracker now user cid text (some 1) =
        ⟨.flagNotFound, db,
          record_attempt now (purgeTracker now 60 tracker)⟩) := by
  refine ⟨?_, ?_, ?_, ?_, ?_, ?_, ?_⟩
  · intro db tracker now user cid text fo hev
    unfold submit_flag_internal
    rw [if_pos (by simp [hev])]
  · intro db tracker now user cid text fo hev hp
    unfold submit_flag_internal
    rw [if_neg (by simp [hev]), if_pos hp]
  · intro db tracker now user cid text fo hev hp hrate
    unfold submit_flag_internal check_rate_limit
    dsimp only
    rw [if_neg (by simp [hev]), if_neg (by simp [hp]),
      if_pos (by simp [hrate])]
  · intro db tracker now user cid text fo hev hp hrate hch
    unfold submit_flag_internal check_rate_limit
    dsimp only
    rw [if_neg (by simp [hev]), if_neg (by simp [hp]),
      if_neg (by simp [hrate]), hch]
  · intro db tracker now user cid text k ch hev hp hrate hch hk
    unfold submit_flag_internal check_rate_limit
    dsimp only
    rw [if_neg (by simp [hev]), if_neg (by simp [hp]),
      if_neg (by simp [hrate]), hch]
    simp [hk]
  · intro db tracker now user cid text ch hev hp hrate hch hlen
    unfold submit_flag_internal check_rate_limit
    dsimp only
    rw [if_neg (by simp [hev]), if_neg (by simp [hp]),
      if_neg (by simp [hrate]), hch]
    simp [hlen]
  · intro db tracker now user cid text ch hev hp hrate hch hlen hfl
    unfold submit_flag_internal check_rate_limit
    dsimp only
    rw [if_neg (by simp [hev]), if_neg (by simp [hp]),
      if_neg (by simp [hrate]), hch]
    simp [hlen, hfl]

/-- **C10.** The correctness verdict of a flag submission depends only on
the challenges (with their flag definitions) and the submitted text: two
database states that agree on every table except `user_flags` produce the
same outcome — in particular the same correctness verdict — for the same
submission by the same participant.  A stored personalized flag value is
therefore never consulted by the validator. -/
theorem verdict_independent_of_personalized_flags (db1 db2 : DB)
    (tracker : List Nat) (now : Nat) (user : UserRow) (cid : Option Nat)
    (text : String) (fo : Option Int)
    (hu : db1.users = db2.users) (hc : db1.challenges = db2.challenges)
    (hs : db1.scores = db2.scores) (hsub : db1.submissions = db2.submissions)
    (hcfg : db1.config = db2.config) :
    (submit_flag_internal db1 tracker now user cid text fo).outcome =
      (submit_flag_internal db2 tracker now user cid text fo).outcome ∧
    judgedCorrect
        (submit_flag_internal db1 tracker now user cid text fo).outcome =
      judgedCorrect
        (submit_flag_internal db2 tracker now user cid text fo).outcome := by
  obtain ⟨u1, c1, s1, b1, f1, g1⟩ := db1
  obtain ⟨u2, c2, s2, b2, f2, g2⟩ := db2
  dsimp only at hu hc hs hsub hcfg
  subst hu hc hs hsub hcfg
  suffices h : (submit_flag_internal ⟨u1, c1, s1, b1, f1, g1⟩
        tracker now user cid text fo).outcome =
      (submit_flag_internal ⟨u1, c1, s1, b1, f2, g1⟩
        tracker now user cid text fo).outcome by
    exact ⟨h, by rw [h]⟩
  by_cases h1 : g1.event_active = true
  · by_cases h2 : (cid.getD 0 == 0 || text == "") = true
    · simp [submit_flag_internal, h1, h2]
    · by_cases h3 : (purgeTracker now 60 tracker).length < 5
      · rcases h4 : c1.find? (fun c => c.id == cid.getD 0) with _ | ch
        · simp [submit_flag_internal, check_rate_limit, h1, h2, h3, h4]
        · rcases fo with _ | k
          · rcases h5 : ch.flags.find?
                (fun f => validate_flag f.flag_content text) with _ | f
            · simp [submit_flag_internal, check_rate_limit,
                h1, h2, h3, h4, h5]
            · rcases h6 : s1.find?
                  (fun s => s.user_id == user.id && s.flag_id == f.id)
                  with _ | s0 <;>
                simp [submit_flag_internal, check_rate_limit,
                  h1, h2, h3, h4, h5, h6]
          · by_cases h5 : k = 1
            · subst h5
              by_cases h6 : ch.flags.length = 1
              · rcases h7 : c1.findSome? (fun x => x.flags.find?
                    (fun f => f.challenge_id == ch.id
                      && f.flag_order == some 1)) with _ | f
                · simp [submit_flag_internal, check_rate_limit, DB.allFlags,
                    h1, h2, h3, h4, h6, h7]
                · by_cases h9 : validate_flag f.flag_content text = true
                  · rcases h8 : s1.find?
                        (fun s => s.user_id == user.id && s.flag_id == f.id)
                        with _ | s0 <;>
                      simp [submit_flag_internal, check_rate_limit,
                        DB.allFlags, h1, h2, h3, h4, h6, h7, h8, h9]
                  · simp [submit_flag_internal, check_rate_limit, DB.allFlags,
                      h1, h2, h3, h4, h6, h7, h9]
              · simp [submit_flag_internal, check_rate_limit,
                  h1, h2, h3, h4, h6]
            · simp [submit_flag_internal, check_rate_limit,
                h1, h2, h3, h4, h5]
      · simp [submit_flag_internal, check_rate_limit, h1, h2, h3]
  · simp [submit_flag_internal, h1]

/-- `_compute_score` reads only the answers map and the stored question
order. -/
theorem compute_score_congr (cfg : QuizConfig) (a b : QuizAttempt)
    (hans : a.answers = b.answers)
    (hord : a.question_order = b.question_order) :
    compute_score cfg a = compute_score cfg b := by
  unfold compute_score
  rw [hans, hord]

/-- **C1.** At most one Score row per `(participant, flag)` pair: every
branch of `_submit_flag_internal` preserves the per-`(user_id, flag_id)`
uniqueness of the scores table (the one insertion is guarded by the
existence check), and a correct submission whose flag already has a Score
row returns the already-scored outcome with zero points and writes
nothing. -/
theorem score_entry_at_most_one_per_user_flag :
    (∀ (db : DB) (tracker : List Nat) (now : Nat) (user : UserRow)
        (cid : Option Nat) (text : String) (fo : Option Int),
      scoresUniquePerUserFlag db.scores →
      scoresUniquePerUserFlag
        (submit_flag_internal db tracker now user cid text fo).db.scores)
    ∧ (∀ (db : DB) (tracker : List Nat) (now : Nat) (user : UserRow)
        (cid : Nat) (text : String) (ch : ChallengeRow) (f : FlagRow)
        (s0 : ScoreRow),
      db.config.event_active = true → cid ≠ 0 → text ≠ "" →
      (purgeTracker now 60 tracker).length < 5 →
      db.challenges.find? (fun c => c.id == cid) = some ch →
      ch.flags.find? (fun f => validate_flag f.flag_content text) = some f →
      db.scores.find?
        (fun s => s.user_id == user.id && s.flag_id == f.id) = some s0 →
      submit_flag_internal db tracker now user (some cid) text none =
        ⟨.alreadyScored 0, db,
          record_attempt now (purgeTracker now 60 tracker)⟩) :=
  ⟨fun db tracker now user cid text fo h =>
    submit_preserves_scoresUnique db tracker now user cid text fo h,
   fun db tracker now user cid text ch f s0 hev hcid htext hrate hch hf hs =>
    submit_already_scored_no_new_row db tracker now user cid text ch f s0
      hev hcid htext hrate hch hf hs⟩

/-- **C5 (amended).** The answer-save endpoint applies the lazy expiry
transition first: a save arriving on an unsubmitted attempt after the
deadline is rejected and the attempt auto-submitted with the score computed
from the answers saved so far.  The violation (tab-switch) endpoint and the
explicit-submit endpoint perform no deadline check at all: for any server
time whatsoever (deadline long past included) a violation report increments
the counter of an unsubmitted attempt without applying expiry, and an
explicit submit with all questions answered is accepted. -/
theorem quiz_expiry_checked_on_save_only :
    (∀ (cfg : QuizConfig) (now : Nat) (a : QuizAttempt)
        (pos selected : Option Nat),
      a.is_submitted = false → time_remaining cfg now a = 0 →
      save_answer cfg now (some a) pos selected =
        (.timeExpired, some { a with
          is_submitted := true
          finished_at := some now
          score := compute_score cfg a }))
    ∧ (∀ (cfg : QuizConfig) (now : Nat) (a : QuizAttempt),
      a.is_submitted = false → a.tab_switches + 1 < cfg.maxTabSwitches →
      record_tab_switch cfg now (some a) =
        (.tabCounted (a.tab_switches + 1) false,
          some { a with tab_switches := a.tab_switches + 1 }))
    ∧ (∀ (cfg : QuizConfig) (now : Nat) (a : QuizAttempt),
      a.is_submitted = false →
      ¬a.answers.length < cfg.questions.length →
      submit_quiz cfg now (some a) =
        (.submitted, some { a with
          is_submitted := true
          finished_at := some now
          score := compute_score cfg a })) := by
  refine ⟨?_, ?_, ?_⟩
  · intro cfg now a pos selected hsub hexp
    simp [save_answer, hsub, hexp]
  · intro cfg now a hsub hlt
    have : ¬a.tab_switches + 1 ≥ cfg.maxTabSwitches := by omega
    simp [record_tab_switch, hsub, this]
  · intro cfg now a hsub hall
    simp [submit_quiz, hsub, hall]

/-- **C6.** Once an attempt is submitted, a save call and a violation call
are rejected without changing the attempt at all; and a violation call on
an in-progress attempt increments the counter and, when the counter reaches
the configured maximum, forces submission with the final score computed
from exactly the answers saved at that instant. -/
theorem quiz_submitted_frozen_and_max_violations_submit :
    (∀ (cfg : QuizConfig) (now : Nat) (a : QuizAttempt)
        (pos selected : Option Nat),
      a.is_submitted = true →
      save_answer cfg now (some a) pos selected = (.alreadyDone, some a))
    ∧ (∀ (cfg : QuizConfig) (now : Nat) (a : QuizAttempt),
      a.is_submitted = true →
      record_tab_switch cfg now (some a) = (.alreadyDone, some a))
    ∧ (∀ (cfg : QuizConfig) (now : Nat) (a : QuizAttempt),
      a.is_submitted = false →
      a.tab_switches + 1 ≥ cfg.maxTabSwitches →
      record_tab_switch cfg now (some a) =
        (.tabCounted (a.tab_switches + 1) true,
          some { a with
            tab_switches := a.tab_switches + 1
            is_submitted := true
            finished_at := some now
            score := compute_score cfg a })) := by
  refine ⟨?_, ?_, ?_⟩
  · intro cfg now a pos selected hsub
    simp [save_answer, hsub]
  · intro cfg now a hsub
    simp [record_tab_switch, hsub]
  · intro cfg now a hsub hge
    simp [record_tab_switch, hsub, hge]
    exact compute_score_congr cfg _ a rfl rfl

theorem hasUserFlag_iff_count_pos (ufs : List UserFlagRow) (uid fid : Nat) :
    hasUserFlag ufs uid fid = true ↔ 0 < countUserFlagRows ufs uid fid := by
  unfold hasUserFlag countUserFlagRows
  rw [List.find?_isSome, List.length_pos_iff_exists_mem]
  constructor
  · rintro ⟨x, hx, hp⟩
    exact ⟨x, List.mem_filter.mpr ⟨hx, hp⟩⟩
  · rintro ⟨x, hx⟩
    obtain ⟨hx, hp⟩ := List.mem_filter.mp hx
    exact ⟨x, hx, hp⟩

theorem countUserFlagRows_append_single (ufs : List UserFlagRow)
    (r : UserFlagRow) (uid fid : Nat) :
    countUserFlagRows (ufs ++ [r]) uid fid =
      countUserFlagRows ufs uid fid +
        (if (r.user_id == uid && r.flag_id == fid) = true then 1 else 0) := by
  unfold countUserFlagRows
  rw [List.filter_append]
  by_cases hr : (r.user_id == uid && r.flag_id == fid) = true
  · simp [hr]
  · simp [hr]

/-- Effect of one loop iteration of `generate_user_flags` on the stored-row
count of an arbitrary pair `(user.id, fid)`. -/
theorem generateOneUserFlag_count (tok : Nat → Nat → String → String)
    (user : UserRow) (ufs : List UserFlagRow) (g : FlagRow) (fid : Nat) :
    countUserFlagRows (generateOneUserFlag tok user ufs g) user.id fid =
      if 0 < countUserFlagRows ufs user.id g.id then
        countUserFlagRows ufs user.id fid
      else
        countUserFlagRows ufs user.id fid + (if g.id = fid then 1 else 0) := by
  unfold generateOneUserFlag
  by_cases hp : hasUserFlag ufs user.id g.id = true
  · rw [if_pos (by simpa [hasUserFlag] using hp),
      if_pos ((hasUserFlag_iff_count_pos ufs user.id g.id).mp hp)]
  · rw [if_neg (by simpa [hasUserFlag] using hp),
      if_neg (fun hc => hp ((hasUserFlag_iff_count_pos ufs user.id g.id).mpr hc))]
    rw [countUserFlagRows_append_single]
    by_cases hgf : g.id = fid
    · simp [hgf, newUserFlagRow]
    · simp [hgf, newUserFlagRow]

/-- Complete characterization of the fold in `generate_user_flags` on the
row count of a pair: an existing count is preserved exactly; a missing row
is created exactly once when some processed flag has the id. -/
theorem uf_fold_count (tok : Nat → Nat → String → String) (user : UserRow)
    (fid : Nat) :
    ∀ (fs : List FlagRow) (ufs : List UserFlagRow),
      countUserFlagRows (fs.foldl (generateOneUserFlag tok user) ufs)
          user.id fid =
        if 0 < countUserFlagRows ufs user.id fid then
          countUserFlagRows ufs user.id fid
        else if fs.any (fun g => g.id == fid) then 1 else 0
  | [], ufs => by
    by_cases h : 0 < countUserFlagRows ufs user.id fid
    · simp [h]
    · simp [h]
      omega
  | g :: fs, ufs => by
    rw [List.foldl_cons, uf_fold_count tok user fid fs]
    rw [generateOneUserFlag_count]
    by_cases hg : 0 < countUserFlagRows ufs user.id g.id
    · rw [if_pos hg]
      by_cases hf : 0 < countUserFlagRows ufs user.id fid
      · simp [hf]
      · rw [if_neg hf, if_neg hf]
        by_cases hgf : g.id = fid
        · exact absurd (hgf ▸ hg) hf
        · simp [hgf]
    · rw [if_neg hg]
      by_cases hgf : g.id = fid
      · subst hgf
        have hf : ¬0 < countUserFlagRows ufs user.id g.id := hg
        rw [if_neg hf]
        simp
        omega
      · simp only [if_neg hgf, Nat.add_zero]
        by_cases hf : 0 < countUserFlagRows ufs user.id fid
        · simp [hf]
        · simp [hf, hgf]

/-- When every flag in the list already has a stored row, the fold is the
identity: regeneration changes nothing. -/
theorem uf_fold_id (tok : Nat → Nat → String → String) (user : UserRow) :
    ∀ (fs : List FlagRow) (ufs : List UserFlagRow),
      (∀ f ∈ fs, hasUserFlag ufs user.id f.id = true) →
      fs.foldl (generateOneUserFlag tok user) ufs = ufs
  | [], ufs, _ => rfl
  | g :: fs, ufs, h => by
    rw [List.foldl_cons]
    have hstep : generateOneUserFlag tok user ufs g = ufs := by
      unfold generateOneUserFlag
      rw [if_pos (by simpa [hasUserFlag] using h g (List.mem_cons_self g fs))]
    rw [hstep]
    exact uf_fold_id tok user fs ufs (fun f hf => h f (List.mem_cons_of_mem g hf))

/-- After the fold, every pair whose flag id occurs in the processed list
has a stored row. -/
theorem uf_fold_has (tok : Nat → Nat → String → String) (user : UserRow)
    (fid : Nat) (fs : List FlagRow) (ufs : List UserFlagRow)
    (hany : fs.any (fun g => g.id == fid) = true) :
    hasUserFlag (fs.foldl (generateOneUserFlag tok user) ufs)
      user.id fid = true := by
  rw [hasUserFlag_iff_count_pos, uf_fold_count]
  by_cases hf : 0 < countUserFlagRows ufs user.id fid
  · simpa [hf] using hf
  · simp [hf, hany]

/-- The fold only appends rows: every previously stored row survives with
its value untouched. -/
theorem uf_fold_append (tok : Nat → Nat → String → String) (user : UserRow) :
    ∀ (fs : List FlagRow) (ufs : List UserFlagRow),
      ∃ ext, fs.foldl (generateOneUserFlag tok user) ufs = ufs ++ ext
  | [], ufs => ⟨[], by simp⟩
  | g :: fs, ufs => by
    rw [List.foldl_cons]
    by_cases hp : (ufs.find?
        (fun r => r.user_id == user.id && r.flag_id == g.id)).isSome = true
    · have hstep : generateOneUserFlag tok user ufs g = ufs := by
        rw [generateOneUserFlag, if_pos hp]
      rw [hstep]
      exact uf_fold_append tok user fs ufs
    · have hstep : generateOneUserFlag tok user ufs g =
          ufs ++ [newUserFlagRow tok user g] := by
        rw [generateOneUserFlag, if_neg hp]
      rw [hstep]
      obtain ⟨ext, hext⟩ :=
        uf_fold_append tok user fs (ufs ++ [newUserFlagRow tok user g])
      exact ⟨newUserFlagRow tok user g :: ext, by rw [hext]; simp⟩

/-- **C9.** Personalized-flag generation is idempotent: a second run changes
nothing; one run leaves exactly one stored row for every `(participant,
flag)` pair whose flag exists (given the table respected its uniqueness
constraint before); and regeneration never modifies an existing row — the
fold only ever appends. -/
theorem personalized_flag_generation_idempotent :
    (∀ (tok : Nat → Nat → String → String) (user : UserRow) (db : DB),
      generate_user_flags tok user (generate_user_flags tok user db) =
        generate_user_flags tok user db)
    ∧ (∀ (tok : Nat → Nat → String → String) (user : UserRow) (db : DB)
        (f : FlagRow), f ∈ db.allFlags →
      countUserFlagRows db.userFlags user.id f.id ≤ 1 →
      countUserFlagRows (generate_user_flags tok user db).userFlags
        user.id f.id = 1)
    ∧ (∀ (tok : Nat → Nat → String → String) (user : UserRow) (db : DB),
      ∃ ext, (generate_user_flags tok user db).userFlags =
        db.userFlags ++ ext) := by
  refine ⟨?_, ?_, ?_⟩
  · intro tok user db
    show ({ generate_user_flags tok user db with
        userFlags := (DB.allFlags (generate_user_flags tok user db)).foldl
          (generateOneUserFlag tok user)
          (generate_user_flags tok user db).userFlags } : DB) = _
    have hall : DB.allFlags (generate_user_flags tok user db) = db.allFlags := rfl
    rw [hall]
    rw [uf_fold_id tok user db.allFlags
      (generate_user_flags tok user db).userFlags (fun f hf => by
        show hasUserFlag ((DB.allFlags db).foldl
          (generateOneUserFlag tok user) db.userFlags) user.id f.id = true
        exact uf_fold_has tok user f.id db.allFlags db.userFlags
          (List.any_eq_true.mpr ⟨f, hf, by simp⟩))]
  · intro tok user db f hf hle
    show countUserFlagRows ((DB.allFlags db).foldl
      (generateOneUserFlag tok user) db.userFlags) user.id f.id = 1
    rw [uf_fold_count]
    by_cases hc : 0 < countUserFlagRows db.userFlags user.id f.id
    · rw [if_pos hc]
      omega
    · rw [if_neg hc, if_pos (List.any_eq_true.mpr ⟨f, hf, by simp⟩)]
  · intro tok user db
    exact uf_fold_append tok user db.allFlags db.userFlags

/-- **C8 (amended).** `validate_flag` is a total boolean function: it
returns true exactly when the submitted string equals the content
case-insensitively, or the content is `"REGEX:"`-tagged and the pattern
obtained by deleting **every** occurrence of the tag (the remainder only
when the tag occurs solely as the prefix) matches the submitted text; a
malformed pattern (`re.error`) is swallowed and the result falls back to
the literal comparison — it never propagates to the caller. -/
theorem validate_flag_characterization (content text : String) :
    (validate_flag content text = true ↔
      (strLower content = strLower text ∨
        (strStartsWith content "REGEX:" = true ∧
          reMatch (strReplace content "REGEX:" "") text = some true)))
    ∧ (strStartsWith content "REGEX:" = true →
      reMatch (strReplace content "REGEX:" "") text = none →
      validate_flag content text = (strLower content == strLower text)) := by
  constructor
  · unfold validate_flag
    by_cases hl : (strLower content == strLower text) = true
    · simp [hl]
      exact Or.inl (by simpa using hl)
    · have hl' : ¬strLower content = strLower text := by simpa using hl
      by_cases hr : strStartsWith content "REGEX:" = true
      · simp only [hl, hr, Bool.false_eq_true, if_false, if_true]
        cases hm : reMatch (strReplace content "REGEX:" "") text with
        | none => simp [hm, hl']
        | some b => cases b <;> simp [hm, hl']
      · simp [hl, hr, hl']
  · intro hr hm
    unfold validate_flag
    by_cases hl : (strLower content == strLower text) = true
    · simp [hl]
    · simp [hl, hr, hm]

/-- **C3 (amended).** Whenever `get_leaderboard` exposes a ranking, the
returned rows are totally ordered by strictly descending approved point
total, ties broken by ascending **latest** correct-submission timestamp
(`MAX(submitted_at)`, not the earliest), with participants lacking any
correct submission ordered last in their tie group via the maximal
sentinel timestamp. -/
theorem leaderboard_sorted_desc_points_then_latest_time (db : DB)
    (viewer : Option UserRow) (rows : List LBEntry)
    (h : get_leaderboard db viewer = some rows) :
    codeOrderedByLatest rows = true := by
  have hrows : rows = leaderboardRows db := by
    unfold get_leaderboard at h
    dsimp only at h
    split at h
    · exact absurd h (by simp)
    · split at h
      · exact absurd h (by simp)
      · exact (Option.some_inj.mp h).symm
  subst hrows
  unfold codeOrderedByLatest leaderboardRows
  rw [pairwiseB_eq_true_iff]
  exact SortedBy.take _ _ 100
    (sortedBy_stableSort _
      (fun (a b : LBEntry) =>
        lbKeyLe_total (a.pts, a.last_time) (b.pts, b.last_time))
      (fun (a b c : LBEntry) =>
        lbKeyLe_trans (a.pts, a.last_time) (b.pts, b.last_time)
          (c.pts, c.last_time)) _)

/-! ## Witnesses and counterexamples -/

/-- Witness for C1: on `exDB` (where Alice's pending score for the flag
already exists) a renewed correct submission keeps the table unique and
returns already-scored with zero points, changing nothing. -/
theorem score_entry_at_most_one_per_user_flag_witness :
    scoresUniquePerUserFlag (submit_flag_internal exDB [] 5 exAlice (some 1)
      "CTF\x7babc\x7d" none).db.scores ∧
    submit_flag_internal exDB [] 5 exAlice (some 1) "CTF\x7babc\x7d" none =
      ⟨.alreadyScored 0, exDB, record_attempt 5 (purgeTracker 5 60 [])⟩ := by
  constructor
  · exact score_entry_at_most_one_per_user_flag.1 exDB [] 5 exAlice (some 1)
      "CTF\x7babc\x7d" none (by simp [scoresUniquePerUserFlag, exDB])
  · exact score_entry_at_most_one_per_user_flag.2 exDB [] 5 exAlice 1
      "CTF\x7babc\x7d" exChallenge exFlag1 exPendingScore rfl (by decide)
      (by decide) (by decide) rfl (by decide) rfl

/-- Witness for C2: approving Alice's pending entry with out-of-range
awards 10 and −2 against maxima (2, 2) stores a clamped, approved entry. -/
theorem approve_score_clamps_and_marks_approved_witness :
    ∃ s', (approve_score exDB exEva 5 10 (-2) 100).scores.find?
        (fun s => s.id == 5) = some s' ∧
      0 ≤ s'.flag_points ∧
      s'.flag_points ≤ (categoryMaxima exDB exPendingScore).1 ∧
      0 ≤ s'.explanation_points ∧
      s'.explanation_points ≤ (categoryMaxima exDB exPendingScore).2 ∧
      s'.points = s'.flag_points + s'.explanation_points ∧
      s'.is_approved = true ∧ s'.approved_by = some exEva.id ∧
      s'.approved_at = some 100 ∧ s'.leaderboard_visible = true :=
  approve_score_clamps_and_marks_approved exDB exEva 5 10 (-2) 100
    exPendingScore rfl

/-- Witness for C3: the leaderboard computed on `cexDB3` is ordered by the
code's key. -/
theorem leaderboard_sorted_desc_points_then_latest_time_witness :
    codeOrderedByLatest ((get_leaderboard cexDB3 none).getD []) = true :=
  leaderboard_sorted_desc_points_then_latest_time cexDB3 none
    ((get_leaderboard cexDB3 none).getD []) rfl

/-- Counterexample for C3 as frozen: on `cexDB3` the exposed ranking is not
ordered by ascending earliest qualifying timestamp within the points tie
(Bob, earliest 5, is ranked above Alice, earliest 1, because the code sorts
by the latest timestamps 5 and 10). -/
theorem leaderboard_earliest_tiebreak_cex :
    (get_leaderboard cexDB3 none).isSome = true ∧
    claimOrderedByEarliest cexDB3 ((get_leaderboard cexDB3 none).getD [])
      = false := by
  exact ⟨rfl, rfl⟩

/-- Witness for C4: approving Alice's entry recomputes her cached total
from the updated table; rejecting her pending entry leaves users untouched
and every approved-points sum unchanged. -/
theorem cached_total_equals_approved_sum_witness :
    (∃ u', (approve_score exDB exEva 5 10 (-2) 100).users.find?
        (fun u => u.id == exPendingScore.user_id) = some u' ∧
      u'.total_points = get_total_points
        (approve_score exDB exEva 5 10 (-2) 100).scores
        exPendingScore.user_id) ∧
    (reject_score exDB 5).users = exDB.users ∧
    get_total_points (reject_score exDB 5).scores 1 =
      get_total_points exDB.scores 1 := by
  refine ⟨?_, ?_, ?_⟩
  · exact cached_total_equals_approved_sum.1 exDB exEva 5 10 (-2) 100
      exPendingScore exAlice rfl rfl
  · exact (cached_total_equals_approved_sum.2 exDB 5 (by decide)).1
  · exact (cached_total_equals_approved_sum.2 exDB 5 (by decide)).2 1

/-- Counterexample for C4 as frozen: rejecting Carol's **approved** 4-point
entry deletes the row but leaves her cached total at 4, while the sum of
her approved entries is now 0 — rejection performs no recomputation. -/
theorem cached_total_stale_after_rejecting_approved_cex :
    (reject_score cexDB4 7).users = [exCarol] ∧
    exCarol.total_points = 4 ∧
    get_total_points (reject_score cexDB4 7).scores exCarol.id = 0 := by
  refine ⟨by decide, by decide, by decide⟩

/-- Witness for C5: a post-deadline save on `cexQuizAttempt` (deadline
2700 s, now 2760 s) is rejected with the expiry transition applied; a
violation report at the same post-deadline instant just increments the
counter; a full post-deadline explicit submit is accepted. -/
theorem quiz_expiry_checked_on_save_only_witness :
    save_answer cexQuizCfg 2760 (some cexQuizAttempt) (some 1) (some 2) =
      (.timeExpired, some { cexQuizAttempt with
        is_submitted := true
        finished_at := some 2760
        score := compute_score cexQuizCfg cexQuizAttempt }) ∧
    record_tab_switch cexQuizCfg 2760 (some cexQuizAttempt) =
      (.tabCounted 1 false, some { cexQuizAttempt with tab_switches := 1 }) ∧
    submit_quiz cexQuizCfg 2760 (some cexQuizAttemptFull) =
      (.submitted, some { cexQuizAttemptFull with
        is_submitted := true
        finished_at := some 2760
        score := compute_score cexQuizCfg cexQuizAttemptFull }) := by
  refine ⟨?_, ?_, ?_⟩
  · exact quiz_expiry_checked_on_save_only.1 cexQuizCfg 2760 cexQuizAttempt
      (some 1) (some 2) rfl rfl
  · exact quiz_expiry_checked_on_save_only.2.1 cexQuizCfg 2760 cexQuizAttempt
      rfl (by decide)
  · exact quiz_expiry_checked_on_save_only.2.2 cexQuizCfg 2760
      cexQuizAttemptFull rfl (by decide)

/-- Counterexample for C5 as frozen: 60 seconds past the 45-minute deadline
the attempt is expired but not yet submitted, and a violation report
mutates its counter (0 → 1) without applying the expiry transition — the
returned attempt is still unsubmitted. -/
theorem quiz_violation_ignores_deadline_cex :
    time_remaining cexQuizCfg 2760 cexQuizAttempt = 0 ∧
    cexQuizAttempt.is_submitted = false ∧
    record_tab_switch cexQuizCfg 2760 (some cexQuizAttempt) =
      (.tabCounted 1 false, some { cexQuizAttempt with tab_switches := 1 }) ∧
    ((record_tab_switch cexQuizCfg 2760 (some cexQuizAttempt)).2.map
      (fun a => a.is_submitted)) = some false := by
  refine ⟨rfl, rfl, by decide, by decide⟩

/-- Witness for C6: the submitted attempt `cexQuizSubmitted` rejects save
and violation calls unchanged; the attempt `cexQuizAlmostMax` (2 of 3
violations) is force-submitted by one more violation with the score of its
saved answers. -/
theorem quiz_submitted_frozen_and_max_violations_submit_witness :
    save_answer cexQuizCfg 100 (some cexQuizSubmitted) (some 0) (some 1) =
      (.alreadyDone, some cexQuizSubmitted) ∧
    record_tab_switch cexQuizCfg 100 (some cexQuizSubmitted) =
      (.alreadyDone, some cexQuizSubmitted) ∧
    record_tab_switch cexQuizCfg 100 (some cexQuizAlmostMax) =
      (.tabCounted 3 true, some { cexQuizAlmostMax with
        tab_switches := 3
        is_submitted := true
        finished_at := some 100
        score := compute_score cexQuizCfg cexQuizAlmostMax }) := by
  refine ⟨?_, ?_, ?_⟩
  · exact quiz_submitted_frozen_and_max_violations_submit.1 cexQuizCfg 100
      cexQuizSubmitted (some 0) (some 1) rfl
  · exact quiz_submitted_frozen_and_max_violations_submit.2.1 cexQuizCfg 100
      cexQuizSubmitted rfl
  · exact quiz_submitted_frozen_and_max_violations_submit.2.2 cexQuizCfg 100
      cexQuizAlmostMax rfl (by decide)

/-- Witness for C7: the event-closed, rate-limited and challenge-not-found
short circuits at concrete inputs — the rate-limited one on a nonexistent
challenge id. -/
theorem submit_precondition_order_witness :
    submit_flag_internal exDBClosed [] 0 exAlice (some 1) "x" none =
      ⟨.eventClosed, exDBClosed, []⟩ ∧
    submit_flag_internal exDB [100, 100, 100, 100, 100] 100 exAlice (some 99)
      "x" none =
      ⟨.rateLimited, exDB, purgeTracker 100 60 [100, 100, 100, 100, 100]⟩ ∧
    submit_flag_internal exDB [] 7 exAlice (some 99) "x" none =
      ⟨.challengeNotFound, exDB, record_attempt 7 (purgeTracker 7 60 [])⟩ := by
  refine ⟨?_, ?_, ?_⟩
  · exact submit_precondition_order.1 exDBClosed [] 0 exAlice (some 1) "x"
      none rfl
  · exact submit_precondition_order.2.2.1 exDB [100, 100, 100, 100, 100] 100
      exAlice (some 99) "x" none rfl (by decide) (by decide)
  · exact submit_precondition_order.2.2.2.1 exDB [] 7 exAlice (some 99) "x"
      none rfl (by decide) (by decide) rfl

/-- Counterexample for C7 as frozen: with the event active and the rate
window exhausted, a submission for the nonexistent challenge 99 yields the
rate-limited failure, not the not-found failure the claim promises. -/
theorem submit_rate_limited_on_missing_challenge_cex :
    (submit_flag_internal exDB [100, 100, 100, 100, 100] 100 exAlice
      (some 99) "x" none).outcome = .rateLimited ∧
    exDB.challenges.find? (fun c => c.id == 99) = none ∧
    SubmitOutcome.rateLimited ≠ SubmitOutcome.challengeNotFound := by
  refine ⟨by decide, by decide, by decide⟩

/-- Witness for C8: the malformed pattern `"("` (unbalanced parenthesis,
`re.error`) fails closed — validation falls back to the literal
comparison. -/
theorem validate_flag_characterization_witness :
    validate_flag "REGEX:(" "x" = (strLower "REGEX:(" == strLower "x") :=
  (validate_flag_characterization "REGEX:(" "x").2 (by decide) (by decide)

/-- Counterexample for C8 as frozen: for content `"REGEX:xREGEX:y"` the
remainder after the tag is the pattern `"xREGEX:y"`, which matches the
submitted text `"xREGEX:y"`, so the claim predicts acceptance — but the
code deletes *every* occurrence of `"REGEX:"`, matches against `"xy"`, and
rejects. -/
theorem validate_flag_strips_all_tags_cex :
    claimed_validate "REGEX:xREGEX:y" "xREGEX:y" = true ∧
    validate_flag "REGEX:xREGEX:y" "xREGEX:y" = false := by
  exact ⟨by decide, by decide⟩

/-- Witness for C9: generating Alice's flags twice equals generating once,
and afterwards exactly one row exists for her and `exFlag1`. -/
theorem personalized_flag_generation_idempotent_witness :
    generate_user_flags exTok exAlice (generate_user_flags exTok exAlice exDB)
      = generate_user_flags exTok exAlice exDB ∧
    countUserFlagRows (generate_user_flags exTok exAlice exDB).userFlags
      exAlice.id exFlag1.id = 1 := by
  refine ⟨personalized_flag_generation_idempotent.1 exTok exAlice exDB, ?_⟩
  exact personalized_flag_generation_idempotent.2.1 exTok exAlice exDB
    exFlag1 (by decide) (by decide)

/-- Witness for C10: adding Alice's stored personalized-flag row leaves the
outcome of her submission unchanged. -/
theorem verdict_independent_of_personalized_flags_witness :
    (submit_flag_internal exDB [] 5 exAlice (some 1) "CTF\x7babc\x7d"
        none).outcome =
      (submit_flag_internal exDBWithUF [] 5 exAlice (some 1) "CTF\x7babc\x7d"
        none).outcome ∧
    judgedCorrect (submit_flag_internal exDB [] 5 exAlice (some 1)
        "CTF\x7babc\x7d" none).outcome =
      judgedCorrect (submit_flag_internal exDBWithUF [] 5 exAlice (some 1)
        "CTF\x7babc\x7d" none).outcome :=
  verdict_independent_of_personalized_flags exDB exDBWithUF [] 5 exAlice
    (some 1) "CTF\x7babc\x7d" none rfl rfl rfl rfl rfl

end MLFest
